import Mathlib

/-!
Ember terrain components: Image buffer and TerrainManager event handling.

A shallow embedding of
* `src/components/ogre/terrain/Image.cpp`
* `src/components/ogre/terrain/TerrainManager.cpp`
* the finalization contract of the terrain-mod tasks declared in
  `TerrainModAddTask.h` / `TerrainModChangeTask.h`.

Machine integers are natural numbers reduced modulo `2 ^ 32` (`unsigned int`) or
modulo `2 ^ w` (`size_t` of width `w`).  Calls on external collaborators (rendering
adapter, terrain handler, vegetation registry, signals) are recorded in an effect
trace, in program order.
-/

namespace Ember

/-! ## Machine arithmetic -/

/-- The number of values of an `unsigned int`. -/
def UINT_MOD : Nat := 2 ^ 32

/-- Multiplication of two `unsigned int` values: the product is reduced modulo `2 ^ 32`. -/
def umul32 (a b : Nat) : Nat := (a * b) % UINT_MOD

/-- Addition of two `unsigned int` values. -/
def uadd32 (a b : Nat) : Nat := (a + b) % UINT_MOD

/-- The conversion `static_cast<unsigned int>(i)` of an `int`: the value modulo `2 ^ 32`. -/
def intToUnsigned (i : Int) : Nat := (i % (UINT_MOD : Int)).toNat

/-- The subtraction `a - b` of two `size_t` values on a platform whose `size_t` has `w` bits. -/
def sizeSub (w a b : Nat) : Nat := (a % 2 ^ w + (2 ^ w - b % 2 ^ w)) % 2 ^ w

/-- The number of low bits a floating-point significand of `p` bits cannot hold of `n`:
the least `e` with `n / 2 ^ e < 2 ^ p`, searched up to `fuel` bits. -/
def excessBits (p : Nat) : Nat → Nat → Nat
  | 0, _ => 0
  | fuel + 1, n => if n < 2 ^ p then 0 else 1 + excessBits p fuel (n / 2)

/-- The conversion `Ogre::Real(n)` of an `unsigned int` `n`, for an `Ogre::Real` whose
significand has `p` bits (24 for `float`, the default, 53 for `double`): `n` itself when it
fits, otherwise the nearest multiple of `2 ^ e`, ties to the even significand.  The result is
integer-valued and is given as a natural number; 32 bits of fuel cover every `unsigned int`. -/
def toOgreReal (p n : Nat) : Nat :=
  let e := excessBits p 32 n
  let q := n / 2 ^ e
  let r := n % 2 ^ e
  if e = 0 then n
  else if 2 ^ (e - 1) < r ∨ (r = 2 ^ (e - 1) ∧ q % 2 = 1) then (q + 1) * 2 ^ e
  else q * 2 ^ e

/-! ## Image.cpp -/

namespace Terrain

/-- One `unsigned char`. -/
abbrev Byte := Fin 256

/-- The fields of `Image`: `mData` is the memory block `mData` points to. -/
structure Image where
  mWidth : Nat
  mChannels : Nat
  mData : List Byte
  mDataOwned : Bool
  deriving DecidableEq, Repr

/-- The libc call `memset(s, c, n)` on a block `s`: it overwrites the first `n` bytes with `c`;
writing past the end of the block is undefined and yields `none`. -/
def memset (s : List Byte) (c : Byte) (n : Nat) : Option (List Byte) :=
  if n ≤ s.length then some (List.replicate n c ++ s.drop n) else none

namespace Image

/-- `Image::Image(unsigned int width, unsigned int channels)`: allocates
`new unsigned char[width * width * channels]`; the fresh block holds indeterminate bytes,
given here by `uninit`. -/
def new (width channels : Nat) (uninit : Nat → Byte) : Image :=
  { mWidth := width
    mChannels := channels
    mData := (List.range (umul32 (umul32 width width) channels)).map uninit
    mDataOwned := true }

/-- `Image::Image(unsigned int width, unsigned int channels, unsigned char* data)`: a view on
memory owned by someone else. -/
def view (width channels : Nat) (data : List Byte) : Image :=
  { mWidth := width, mChannels := channels, mData := data, mDataOwned := false }

/-- `Image::getData`. -/
def getData (img : Image) : List Byte := img.mData

/-- `Image::getChannels`. -/
def getChannels (img : Image) : Nat := img.mChannels

/-- `Image::getSize`: `mWidth * mWidth * mChannels`, computed in `unsigned int`. -/
def getSize (img : Image) : Nat := umul32 (umul32 img.mWidth img.mWidth) img.mChannels

/-- `Image::getWidth`. -/
def getWidth (img : Image) : Nat := img.mWidth

/-- `Image::reset`: `memset(mData, 0, getSize())`. -/
def reset (img : Image) : Option Image :=
  (memset img.mData 0 img.getSize).map fun d => { img with mData := d }

end Image

/-- A borrowed view of width 65536 with one channel on a one-byte block holding 7. -/
def wrappedView : Image := Image.view 65536 1 [7]


/-! ## TerrainManager.cpp -/

/-- `TerrainIndex`: a pair of `int` page coordinates. -/
abbrev TerrainIndex := Int × Int

/-- A `TerrainPage` object: `addr` is its address (what a `TerrainPage*` compares by) and
`index` is what `getWFIndex()` returns. -/
structure TerrainPage where
  addr : Nat
  index : TerrainIndex
  deriving DecidableEq, Repr

/-- `std::set<TerrainPage*>`: the pointers held, in iteration order, which is strictly
ascending by address. -/
structure PageSet where
  elems : List TerrainPage
  ascending : elems.Pairwise (fun p q => p.addr < q.addr)

/-- `TerrainFoliageDefinition`: one foliage entry of a layer definition. -/
structure TerrainFoliageDefinition where
  plantType : String
  populationTechnique : String
  deriving DecidableEq, Repr

/-- `TerrainLayerDefinition`: `foliages` is what `getFoliages()` iterates over, in order. -/
structure TerrainLayerDefinition where
  foliages : List TerrainFoliageDefinition
  deriving DecidableEq, Repr

/-- `TerrainShader`: `layerDefinition` is what `getLayerDefinition()` returns. -/
structure TerrainShader where
  layerDefinition : TerrainLayerDefinition
  deriving DecidableEq, Repr

/-- What the handlers observe of a `varconf::Variable`: the answers of `is_bool()` and
`is_int()` and the results of `static_cast<bool>` and `static_cast<int>`.  The library is
external, so no relation between the four is assumed. -/
structure Variable where
  is_bool : Bool
  is_int : Bool
  asBool : Bool
  asInt : Int
  deriving DecidableEq, Repr

/-- Calls on the collaborators of `TerrainManager`, as they appear in the source. -/
inductive Effect where
  | removeFrameListener
  | handlerShutdown
  | adapterReset
  | deleteTerrainAdapter
  | deleteHandler
  | deleteVegetation
  | deleteCompilerTechniqueProvider
  | adapterSetPageSize (size : Nat)
  | adapterSetLoadRadius (radius : Nat)  -- the value of the `Ogre::Real` argument
  | adapterReloadPage (index : TerrainIndex)
  | adapterLoadScene
  | handlerSetPageSize (size : Nat)
  | handlerUpdateAllPages
  | emitTerrainPageGeometryUpdated (page : TerrainPage)
  | createPopulator (foliage : TerrainFoliageDefinition) (index : Nat)
  deriving DecidableEq, Repr

/-- The data members of `TerrainManager` that its handlers read or write.  The pointers
`mHandler`, `mTerrainAdapter`, `mVegetation` are set once by the constructor (which
dereferences `adapter`) and never reassigned; calls through them go to the effect trace. -/
structure TerrainManager where
  mIsFoliageShown : Bool
  mFoliageBatchSize : Nat
  mIsInitialized : Bool
  deriving DecidableEq, Repr

namespace TerrainManager

/-- The member initialisers of the constructor. -/
def construct : TerrainManager :=
  { mIsFoliageShown := false, mFoliageBatchSize := 32, mIsInitialized := false }

/-- `TerrainManager::~TerrainManager`: the calls it makes, in order. -/
def destructor (_s : TerrainManager) : List Effect :=
  let t : List Effect := []
  let t := t ++ [Effect.removeFrameListener]
  let t := t ++ [Effect.handlerShutdown]
  let t := t ++ [Effect.adapterReset]
  let t := t ++ [Effect.deleteTerrainAdapter]
  let t := t ++ [Effect.deleteHandler]
  let t := t ++ [Effect.deleteVegetation]
  let t := t ++ [Effect.deleteCompilerTechniqueProvider]
  t

/-- `TerrainManager::updateFoliageVisibility`: its body is commented out. -/
def updateFoliageVisibility (s : TerrainManager) : TerrainManager × List Effect := (s, [])

/-- `TerrainManager::config_Foliage`; `arbvp1` is the answer of
`GpuProgramManager::getSingleton().isSyntaxSupported("arbvp1")`. -/
def config_Foliage (arbvp1 : Bool) (s : TerrainManager) (_section _key : String)
    (var : Variable) : TerrainManager × List Effect :=
  let s1 : TerrainManager :=
    if arbvp1 && var.is_bool then { s with mIsFoliageShown := var.asBool }
    else { s with mIsFoliageShown := false }
  updateFoliageVisibility s1

/-- `TerrainManager::config_TerrainPageSize`. -/
def config_TerrainPageSize (s : TerrainManager) (_section _key : String)
    (var : Variable) : TerrainManager × List Effect :=
  if var.is_int then
    let size := uadd32 (intToUnsigned var.asInt) 1
    (s, [Effect.adapterSetPageSize size, Effect.handlerSetPageSize size,
         Effect.handlerUpdateAllPages])
  else (s, [])

/-- `TerrainManager::config_TerrainLoadRadius`: the adapter receives `Ogre::Real(radius)`;
`realBits` is the significand width of `Ogre::Real`. -/
def config_TerrainLoadRadius (realBits : Nat) (s : TerrainManager) (_section _key : String)
    (var : Variable) : TerrainManager × List Effect :=
  if var.is_int then
    let radius := intToUnsigned var.asInt
    (s, [Effect.adapterSetLoadRadius (toOgreReal realBits radius)])
  else (s, [])

/-- `TerrainManager::terrainHandler_AfterTerrainUpdate`: one loop iteration per page of the
set, in iteration order. -/
def terrainHandler_AfterTerrainUpdate {Area : Type} (s : TerrainManager) (_areas : List Area)
    (pages : PageSet) : TerrainManager × List Effect :=
  (s, pages.elems.foldl
        (fun t page =>
          let index := page.index
          t ++ [Effect.adapterReloadPage index, Effect.emitTerrainPageGeometryUpdated page])
        [])

/-- `TerrainManager::terrainHandler_ShaderCreated`; `w` is the width of `size_t` and
`allShaders` is `mHandler->getAllShaders().size()`. -/
def terrainHandler_ShaderCreated (w allShaders : Nat) (s : TerrainManager)
    (shader : TerrainShader) : TerrainManager × List Effect :=
  let index := sizeSub w allShaders 1
  let layerDef := shader.layerDefinition
  (s, layerDef.foliages.foldl (fun t I => t ++ [Effect.createPopulator I index]) [])

/-- `TerrainManager::initializeTerrain`. -/
def initializeTerrain (s : TerrainManager) : TerrainManager × List Effect :=
  (s, [Effect.adapterLoadScene])

/-- `TerrainManager::terrainHandler_WorldSizeChanged`. -/
def terrainHandler_WorldSizeChanged (s : TerrainManager) : TerrainManager × List Effect :=
  if !s.mIsInitialized then
    let r := initializeTerrain s
    ({ r.1 with mIsInitialized := true }, r.2)
  else (s, [])

/-- `TerrainManager::isFoliageShown`. -/
def isFoliageShown (s : TerrainManager) : Bool := s.mIsFoliageShown

/-- Delivery of `n` successive `EventWorldSizeChanged` emissions to the manager: the final
state and, per event, the calls that event caused. -/
def deliverWorldSizeChanged : Nat → TerrainManager → TerrainManager × List (List Effect)
  | 0, s => (s, [])
  | n + 1, s =>
    let r := terrainHandler_WorldSizeChanged s
    let rest := deliverWorldSizeChanged n r.1
    (rest.1, r.2 :: rest.2)

end TerrainManager

/-- The calls one loop iteration of `terrainHandler_AfterTerrainUpdate` makes for a page. -/
def pageUpdateCalls (page : TerrainPage) : List Effect :=
  [Effect.adapterReloadPage page.index, Effect.emitTerrainPageGeometryUpdated page]

/-- A shader whose layer definition has two foliage definitions. -/
def grassShader : TerrainShader :=
  { layerDefinition :=
      { foliages := [{ plantType := "grass", populationTechnique := "cluster" },
                     { plantType := "fern", populationTechnique := "cluster" }] } }

/-- A set of two pages with different indices. -/
def twoPages : PageSet :=
  { elems := [{ addr := 100, index := (0, 0) }, { addr := 200, index := (0, 1) }]
    ascending := by decide }

/-- A configuration variable that is neither a boolean nor an integer. -/
def textVariable : Variable := { is_bool := false, is_int := false, asBool := true, asInt := 7 }

/-- An integer configuration variable holding `v`. -/
def intVariable (v : Int) : Variable :=
  { is_bool := false, is_int := true, asBool := true, asInt := v }


/-! ## Terrain-mod tasks (`TerrainModAddTask.h`, `TerrainModChangeTask.h`) -/

/-- A `Mercator::TerrainMod`, identified by the shape it describes. -/
structure TerrainMod where
  shape : String
  deriving DecidableEq, Repr

/-- `TerrainModMap`: the shared mapping from entity id to the currently applied mod, as the
list of its entries. -/
abbrev TerrainModMap := List (String × TerrainMod)

/-- Modelled from the spec: erasing an entity id from the entity-to-applied-modification map
("erase for remove"); the source of the map operations is not part of the fragment. -/
def modMapErase (m : TerrainModMap) (entityId : String) : TerrainModMap :=
  m.filter fun e => decide (e.1 ≠ entityId)

/-- Modelled from the spec: inserting the applied copy for an entity id; "superseding a
modification always removes the prior applied copy before inserting the new one". -/
def modMapInsert (m : TerrainModMap) (entityId : String) (applied : TerrainMod) :
    TerrainModMap :=
  (entityId, applied) :: modMapErase m entityId

/-- The entries the map holds for one entity id. -/
def modMapEntries (m : TerrainModMap) (entityId : String) : TerrainModMap :=
  m.filter fun e => decide (e.1 = entityId)

/-- The three kinds of terrain-mod task with the members the headers declare: the entity id
of the task base, `mAppliedMod` of the add and change tasks, `mExistingMod` of the change
task.  The remove task has no header in the fragment and carries the entity id only. -/
inductive TerrainModTask where
  | add (mEntityId : String) (mAppliedMod : TerrainMod)
  | change (mEntityId : String) (mExistingMod mAppliedMod : TerrainMod)
  | remove (mEntityId : String)
  deriving DecidableEq, Repr

/-- The entity id a task targets. -/
def TerrainModTask.entityId : TerrainModTask → String
  | .add e _ => e
  | .change e _ _ => e
  | .remove e => e

/-- What a finalization lets the rest of the system observe: the request to regenerate the
pages affected by the task of an entity, and the anomaly of a change found stale. -/
inductive ModEvent where
  | terrainUpdate (entityId : String)
  | staleChange (entityId : String)
  deriving DecidableEq, Repr

/-- What a change task does when its recorded existing modification is not in the map at
finalization time: section 4.1 of the specification states `skipRemoval` (degrade to an add of
the new modification); its design notes leave `abort` (do nothing) open. -/
inductive StalePolicy where
  | skipRemoval
  | abort
  deriving DecidableEq, Repr

/-- Modelled from the spec: `executeTaskInMainThread` of the add, change and remove tasks,
whose `.cpp` files are missing from the fragment.  When the referenced terrain instance no
longer exists "the task finalizes as a no-op".  Otherwise it "updates the
entity→applied-modification map (insert for add, replace for change, erase for remove)" and
requests the regeneration of the affected pages; a change whose recorded existing modification
is not present in the map is stale and, under `skipRemoval`, "degrades to an add of only the
new modification", observably; a remove for an id without an entry is a no-op without event. -/
def executeTaskInMainThread (policy : StalePolicy) (task : TerrainModTask)
    (terrainExists : Bool) (mTerrainMods : TerrainModMap) : TerrainModMap × List ModEvent :=
  if !terrainExists then (mTerrainMods, [])
  else
    match task with
    | .add e applied => (modMapInsert mTerrainMods e applied, [ModEvent.terrainUpdate e])
    | .change e existing applied =>
      if (e, existing) ∈ mTerrainMods then
        (modMapInsert (modMapErase mTerrainMods e) e applied, [ModEvent.terrainUpdate e])
      else
        match policy with
        | .skipRemoval =>
          (modMapInsert mTerrainMods e applied,
            [ModEvent.staleChange e, ModEvent.terrainUpdate e])
        | .abort => (mTerrainMods, [ModEvent.staleChange e])
    | .remove e =>
      if modMapEntries mTerrainMods e = [] then (mTerrainMods, [])
      else (modMapErase mTerrainMods e, [ModEvent.terrainUpdate e])

/-- A task at the moment its main-thread phase runs: `terrainExists` tells whether the terrain
instance the task references still exists then. -/
structure Finalization where
  task : TerrainModTask
  terrainExists : Bool
  deriving DecidableEq, Repr

/-- Modelled from the spec: the main-thread finalizations of a sequence of tasks, run in
submission order (the dispatcher is not part of the fragment): the final map and the events
observed, in order. -/
def finalizeAll (policy : StalePolicy) (steps : List Finalization)
    (mTerrainMods : TerrainModMap) : TerrainModMap × List ModEvent :=
  steps.foldl
    (fun acc f =>
      let r := executeTaskInMainThread policy f.task f.terrainExists acc.1
      (r.1, acc.2 ++ r.2))
    (mTerrainMods, [])

/-- The entries the specification's testable property prescribes for the targeted id after a
sequence ending in `last`: no entry after a remove, otherwise the single entry holding the
applied copy of `last`. -/
def expectedEntries (entityId : String) : TerrainModTask → TerrainModMap
  | .add _ applied => [(entityId, applied)]
  | .change _ _ applied => [(entityId, applied)]
  | .remove _ => []

/-- The last task of a sequence whose finalization found its terrain instance alive. -/
def lastEffective (steps : List Finalization) : Option TerrainModTask :=
  ((steps.filter fun f => f.terrainExists).getLast?).map fun f => f.task

/-- The entries for an id once the last effective task is known: those the property prescribes
for that task, or those of the initial map when no task was effective. -/
def settledEntries (entityId : String) (initial : TerrainModMap) :
    Option TerrainModTask → TerrainModMap
  | none => modMapEntries initial entityId
  | some t => expectedEntries entityId t

/-- Add(rock1, crater) finalized with the terrain alive, then Change(rock1, crater to ramp)
finalized after the terrain instance is gone. -/
def changeAfterTeardown : List Finalization :=
  [{ task := TerrainModTask.add "rock1" ⟨"crater"⟩, terrainExists := true },
   { task := TerrainModTask.change "rock1" ⟨"crater"⟩ ⟨"ramp"⟩, terrainExists := false }]

/-- Add(rock1, crater) then Change(rock1, crater to ramp), both finalized with the terrain
alive. -/
def addThenChange : List Finalization :=
  [{ task := TerrainModTask.add "rock1" ⟨"crater"⟩, terrainExists := true },
   { task := TerrainModTask.change "rock1" ⟨"crater"⟩ ⟨"ramp"⟩, terrainExists := true }]

/-- A set of two pages that have the same index (2, 2). -/
def sharedIndexPages : PageSet :=
  { elems := [{ addr := 100, index := (2, 2) }, { addr := 200, index := (2, 2) }]
    ascending := by decide }

end Terrain

end Ember

namespace Ember

namespace Terrain

/-! ## Theorems: Image -/

theorem umul32_umul32 (a b c : Nat) : umul32 (umul32 a b) c = (a * b * c) % 2 ^ 32 := by
  unfold umul32 UINT_MOD
  rw [Nat.mul_mod, Nat.mod_mod, ← Nat.mul_mod]

theorem Image.getSize_eq (img : Image) :
    img.getSize = (img.mWidth * img.mWidth * img.mChannels) % 2 ^ 32 :=
  umul32_umul32 _ _ _

theorem memset_getElem?_lt (s : List Byte) (c : Byte) (n i : Nat) (h : i < n) :
    (List.replicate n c ++ s.drop n)[i]? = some c := by
  rw [List.getElem?_append_left (by simpa using h)]
  simp [List.getElem?_replicate, h]

theorem memset_getElem?_ge (s : List Byte) (c : Byte) (n i : Nat) (h : n ≤ i) :
    (List.replicate n c ++ s.drop n)[i]? = s[i]? := by
  rw [List.getElem?_append_right (by simpa using h)]
  simp only [List.length_replicate, List.getElem?_drop]
  congr 1
  omega

/-- C1 (as amended): for every Image whose storage holds at least `getSize()` bytes, `reset()`
succeeds; afterwards each of the first `getSize()` = (W*W*C mod 2^32) bytes is 0, every byte
from `getSize()` on is as before, the storage keeps its length, and width, channels and
ownership are unchanged; when W*W*C < 2^32 the zeroed range is the first W*W*C bytes. -/
theorem Image_reset_zero_fills (img : Image) (h : img.getSize ≤ img.mData.length) :
    ∃ img', img.reset = some img' ∧
      (∀ i, i < img.getSize → img'.mData[i]? = some 0) ∧
      (∀ i, img.getSize ≤ i → img'.mData[i]? = img.mData[i]?) ∧
      img'.mData.length = img.mData.length ∧
      img'.getWidth = img.getWidth ∧ img'.getChannels = img.getChannels ∧
      img'.mDataOwned = img.mDataOwned ∧
      img.getSize = (img.mWidth * img.mWidth * img.mChannels) % 2 ^ 32 ∧
      (img.mWidth * img.mWidth * img.mChannels < 2 ^ 32 →
        ∀ i, i < img.mWidth * img.mWidth * img.mChannels → img'.mData[i]? = some 0) := by
  refine ⟨{ img with mData := List.replicate img.getSize 0 ++ img.mData.drop img.getSize },
    ?_, ?_, ?_, ?_, rfl, rfl, rfl, img.getSize_eq, ?_⟩
  · simp [Image.reset, memset, h]
  · intro i hi
    exact memset_getElem?_lt _ _ _ _ hi
  · intro i hi
    exact memset_getElem?_ge _ _ _ _ hi
  · simp only [List.length_append, List.length_replicate, List.length_drop]
    omega
  · intro hlt i hi
    have hs : img.getSize = img.mWidth * img.mWidth * img.mChannels := by
      rw [img.getSize_eq, Nat.mod_eq_of_lt hlt]
    exact memset_getElem?_lt _ _ _ _ (hs ▸ hi)

/-- Witness for C1: a 4 x 4 one-channel owning image; `getSize()` is 16 and after `reset()`
all 16 bytes are 0. -/
theorem Image_reset_zero_fills_witness :
    (Image.new 4 1 (fun _ => 9)).getSize ≤ (Image.new 4 1 (fun _ => 9)).mData.length ∧
    (Image.new 4 1 (fun _ => 9)).getSize = 16 ∧
    ((Image.new 4 1 (fun _ => 9)).reset).map Image.getData = some (List.replicate 16 0) := by
  refine ⟨by decide, by decide, ?_⟩
  obtain ⟨img', hr, hz, -, hlen, -⟩ :=
    Image_reset_zero_fills (Image.new 4 1 (fun _ => 9)) (by decide)
  have h16 : (Image.new 4 1 (fun _ => 9)).getSize = 16 := by decide
  have hl16 : (Image.new 4 1 (fun _ => 9)).mData.length = 16 := by decide
  rw [hr]
  show some img'.mData = some (List.replicate 16 0)
  congr 1
  apply List.ext_getElem?
  intro i
  by_cases hi : i < 16
  · rw [hz i (h16 ▸ hi), List.getElem?_replicate, if_pos hi]
  · have h1 : img'.mData.length ≤ i := by omega
    rw [List.getElem?_eq_none h1, List.getElem?_replicate, if_neg hi]

/-- Counterexample to C1 as stated: a view of width 65536 with one channel on a one-byte block
meets the precondition (`getSize()` is 0), `reset()` writes nothing, and byte 0, which lies
among the first W*W*C = 2^32 bytes, is still 7. -/
theorem Image_reset_wrapped_counterexample :
    wrappedView.getWidth < 2 ^ 32 ∧ wrappedView.getChannels < 2 ^ 32 ∧
    wrappedView.getSize = 0 ∧ wrappedView.getSize ≤ wrappedView.mData.length ∧
    wrappedView.reset = some wrappedView ∧
    0 < wrappedView.getWidth * wrappedView.getWidth * wrappedView.getChannels ∧
    wrappedView.mData[0]? = some 7 ∧
    ¬ (∀ img', wrappedView.reset = some img' →
        ∀ i, i < wrappedView.getWidth * wrappedView.getWidth * wrappedView.getChannels →
          i < img'.mData.length → img'.mData[i]? = some 0) := by
  refine ⟨by decide, by decide, by decide, by decide, by decide, by decide, by decide, ?_⟩
  intro hall
  have h := hall wrappedView (by decide) 0 (by decide) (by decide)
  revert h
  decide

/-- C2 (as amended): for every width W and channel count C, `getSize()` of `Image(W, C)` is
W*W*C reduced modulo 2^32, the constructor allocates exactly `getSize()` bytes, and when
W*W*C < 2^32 both equal W*W*C. -/
theorem Image_new_size (W C : Nat) (uninit : Nat → Byte) :
    (Image.new W C uninit).getSize = (W * W * C) % 2 ^ 32 ∧
    (Image.new W C uninit).mData.length = (Image.new W C uninit).getSize ∧
    (Image.new W C uninit).getWidth = W ∧ (Image.new W C uninit).getChannels = C ∧
    (W * W * C < 2 ^ 32 →
      (Image.new W C uninit).getSize = W * W * C ∧
      (Image.new W C uninit).mData.length = W * W * C) := by
  have hs : (Image.new W C uninit).getSize = (W * W * C) % 2 ^ 32 := Image.getSize_eq _
  have hl : (Image.new W C uninit).mData.length = (Image.new W C uninit).getSize := by
    simp [Image.new, Image.getSize]
  refine ⟨hs, hl, rfl, rfl, ?_⟩
  intro hlt
  rw [hl, hs, Nat.mod_eq_of_lt hlt]
  exact ⟨rfl, rfl⟩

/-- Witness for C2: W = 4 and C = 1 give `getSize()` = 16 and a storage of 16 bytes. -/
theorem Image_new_size_witness :
    4 * 4 * 1 < 2 ^ 32 ∧
    (Image.new 4 1 (fun _ => 9)).getSize = 4 * 4 * 1 ∧
    (Image.new 4 1 (fun _ => 9)).mData.length = 4 * 4 * 1 :=
  ⟨by decide, (Image_new_size 4 1 (fun _ => 9)).2.2.2.2 (by decide)⟩

/-- Counterexample to C2 as stated: for W = 65536 and C = 3, both 32-bit values, `getSize()`
is 0 and the constructor allocates 0 bytes, while W*W*C is 12884901888. -/
theorem Image_new_size_counterexample :
    (65536 : Nat) < 2 ^ 32 ∧ (3 : Nat) < 2 ^ 32 ∧
    (Image.new 65536 3 (fun _ => 0)).getSize = 0 ∧
    (Image.new 65536 3 (fun _ => 0)).mData.length = 0 ∧
    (Image.new 65536 3 (fun _ => 0)).getSize ≠ 65536 * 65536 * 3 := by
  refine ⟨by decide, by decide, by decide, by decide, by decide⟩

/-! ## Theorems: TerrainManager -/

namespace TerrainManager

theorem foldl_append_trace {α β : Type} (f : α → List β) (l : List α) (init : List β) :
    l.foldl (fun t x => t ++ f x) init = init ++ l.flatMap f := by
  induction l generalizing init with
  | nil => simp
  | cons a l ih => simp [List.foldl_cons, ih, List.flatMap_cons, List.append_assoc]

theorem deliverWorldSizeChanged_of_initialized (n : Nat) (s : TerrainManager)
    (h : s.mIsInitialized = true) :
    deliverWorldSizeChanged n s = (s, List.replicate n []) := by
  induction n with
  | zero => rfl
  | succ n ih =>
    have h1 : terrainHandler_WorldSizeChanged s = (s, []) := by
      simp [terrainHandler_WorldSizeChanged, h]
    simp [deliverWorldSizeChanged, h1, ih, List.replicate_succ]

theorem worldSizeChanged_first (s : TerrainManager) (h : s.mIsInitialized = false) :
    terrainHandler_WorldSizeChanged s =
      ({ s with mIsInitialized := true }, [Effect.adapterLoadScene]) := by
  simp [terrainHandler_WorldSizeChanged, initializeTerrain, h]

end TerrainManager

open TerrainManager

/-- C3: delivered to a manager whose `mIsInitialized` is false, a sequence of `n + 1`
world-size-changed events causes `loadScene` on the first event and nothing on each of the
`n` later ones, so `loadScene` is called exactly once; an empty sequence causes no call;
`mIsInitialized` is true after the first event and after every later one, and nothing else
in the manager changes. -/
theorem worldSizeChanged_initializes_once (s : TerrainManager)
    (h : s.mIsInitialized = false) (n : Nat) :
    (deliverWorldSizeChanged 0 s).2 = [] ∧
    (terrainHandler_WorldSizeChanged s).2 = [Effect.adapterLoadScene] ∧
    (deliverWorldSizeChanged (n + 1) s).2 = [Effect.adapterLoadScene] :: List.replicate n [] ∧
    ((deliverWorldSizeChanged (n + 1) s).2.flatten).count Effect.adapterLoadScene = 1 ∧
    (deliverWorldSizeChanged (n + 1) s).1.mIsInitialized = true ∧
    (deliverWorldSizeChanged (n + 1) s).1 = { s with mIsInitialized := true } := by
  have h1 := worldSizeChanged_first s h
  have h2 : deliverWorldSizeChanged (n + 1) s =
      ({ s with mIsInitialized := true }, [Effect.adapterLoadScene] :: List.replicate n []) := by
    simp [deliverWorldSizeChanged, h1, deliverWorldSizeChanged_of_initialized]
  refine ⟨rfl, by rw [h1], by rw [h2], ?_, by rw [h2], by rw [h2]⟩
  rw [h2]
  have h3 : (List.replicate n ([] : List Effect)).flatten = [] := by
    induction n with
    | zero => rfl
    | succ n ih => simp [List.replicate_succ, ih]
  simp [List.flatten_cons, h3]

/-- Witness for C3: three events delivered to a freshly constructed manager. -/
theorem worldSizeChanged_initializes_once_witness :
    construct.mIsInitialized = false ∧
    (deliverWorldSizeChanged 3 construct).2 = [[Effect.adapterLoadScene], [], []] ∧
    (deliverWorldSizeChanged 3 construct).1.mIsInitialized = true :=
  ⟨rfl, (worldSizeChanged_initializes_once construct rfl 2).2.2.1,
    (worldSizeChanged_initializes_once construct rfl 2).2.2.2.2.1⟩

theorem pageSize_unsigned (v : Int) :
    uadd32 (intToUnsigned v) 1 = ((v + 1) % 2 ^ 32).toNat := by
  unfold uadd32 intToUnsigned UINT_MOD
  norm_num
  omega

/-- C4 (as amended): for every integer configuration value v, `config_TerrainPageSize` calls
`adapter.setPageSize(size)`, `handler.setPageSize(size)`, `handler.updateAllPages()` in this
order and nothing else, with the same `size` = (v + 1) mod 2^32 in both calls, and leaves the
manager unchanged; `size` is v + 1 whenever -1 ≤ v ≤ 2^32 - 2, in particular for every
non-negative `int`. -/
theorem config_TerrainPageSize_effective (s : TerrainManager) (sec key : String)
    (var : Variable) (h : var.is_int = true) :
    config_TerrainPageSize s sec key var =
      (s, [Effect.adapterSetPageSize ((var.asInt + 1) % 2 ^ 32).toNat,
           Effect.handlerSetPageSize ((var.asInt + 1) % 2 ^ 32).toNat,
           Effect.handlerUpdateAllPages]) ∧
    (-1 ≤ var.asInt → var.asInt < 2 ^ 32 - 1 →
      (((var.asInt + 1) % 2 ^ 32).toNat : Int) = var.asInt + 1) := by
  constructor
  · simp only [config_TerrainPageSize, h, if_true, pageSize_unsigned]
  · intro h1 h2
    omega

/-- Witness for C4: the stored value 64 gives the effective page size 65. -/
theorem config_TerrainPageSize_effective_witness :
    (intVariable 64).is_int = true ∧
    config_TerrainPageSize construct "terrain" "pagesize" (intVariable 64) =
      (construct, [Effect.adapterSetPageSize 65, Effect.handlerSetPageSize 65,
                   Effect.handlerUpdateAllPages]) :=
  ⟨rfl, (config_TerrainPageSize_effective construct "terrain" "pagesize" (intVariable 64) rfl).1⟩

/-- Counterexample to C4 as stated: for the integer value v = -2 the size passed to the adapter
and to the handler is 4294967295, not v + 1 = -1. -/
theorem config_TerrainPageSize_negative_counterexample :
    (intVariable (-2)).is_int = true ∧ (intVariable (-2)).asInt = -2 ∧
    (config_TerrainPageSize construct "terrain" "pagesize" (intVariable (-2))).2 =
      [Effect.adapterSetPageSize 4294967295, Effect.handlerSetPageSize 4294967295,
       Effect.handlerUpdateAllPages] ∧
    ((4294967295 : Nat) : Int) ≠ (intVariable (-2)).asInt + 1 := by
  refine ⟨rfl, rfl, by decide, by decide⟩

/-- C5: for every configuration variable that is not an integer, `config_TerrainPageSize` and
`config_TerrainLoadRadius` make no call on the adapter or the handler and return the manager
unchanged, whatever the precision of `Ogre::Real`. -/
theorem config_nonInteger_ignored (realBits : Nat) (s : TerrainManager) (sec key : String)
    (var : Variable) (h : var.is_int = false) :
    config_TerrainPageSize s sec key var = (s, []) ∧
    config_TerrainLoadRadius realBits s sec key var = (s, []) := by
  simp [config_TerrainPageSize, config_TerrainLoadRadius, h]

/-- Witness for C5: a text variable given to both handlers of a fresh manager. -/
theorem config_nonInteger_ignored_witness :
    textVariable.is_int = false ∧
    config_TerrainPageSize construct "terrain" "pagesize" textVariable = (construct, []) ∧
    config_TerrainLoadRadius 24 construct "terrain" "loadradius" textVariable =
      (construct, []) :=
  ⟨rfl, config_nonInteger_ignored 24 construct "terrain" "pagesize" textVariable rfl |>.1,
    config_nonInteger_ignored 24 construct "terrain" "loadradius" textVariable rfl |>.2⟩

/-- C6 (as amended): for every prior value of the foliage-shown flag and every configuration
variable that is not a boolean, `config_Foliage` sets the flag to false, so `isFoliageShown()`
is false after the call; it equals the value before the call exactly when that value was
false.  No call is made and no other member changes. -/
theorem config_Foliage_nonBool_clears (arbvp1 : Bool) (s : TerrainManager) (sec key : String)
    (var : Variable) (h : var.is_bool = false) :
    isFoliageShown (config_Foliage arbvp1 s sec key var).1 = false ∧
    (isFoliageShown (config_Foliage arbvp1 s sec key var).1 = isFoliageShown s ↔
      isFoliageShown s = false) ∧
    (config_Foliage arbvp1 s sec key var).2 = [] ∧
    (config_Foliage arbvp1 s sec key var).1 = { s with mIsFoliageShown := false } := by
  have h1 : config_Foliage arbvp1 s sec key var = ({ s with mIsFoliageShown := false }, []) := by
    simp [config_Foliage, updateFoliageVisibility, h]
  rw [h1]
  refine ⟨rfl, ?_, rfl, rfl⟩
  simp only [isFoliageShown]
  constructor
  · intro h2
    exact h2.symm
  · intro h2
    exact h2.symm

/-- Witness for C6: a text variable given to a manager whose foliage is shown. -/
theorem config_Foliage_nonBool_clears_witness :
    textVariable.is_bool = false ∧
    isFoliageShown (config_Foliage true { construct with mIsFoliageShown := true }
      "graphics" "foliage" textVariable).1 = false :=
  ⟨rfl, (config_Foliage_nonBool_clears true { construct with mIsFoliageShown := true }
      "graphics" "foliage" textVariable rfl).1⟩

/-- Counterexample to C6 as stated: with foliage shown and the vertex-program syntax supported,
a non-boolean variable turns the flag off: `isFoliageShown()` is true before the call and
false after it. -/
theorem config_Foliage_nonBool_counterexample :
    textVariable.is_bool = false ∧
    isFoliageShown { construct with mIsFoliageShown := true } = true ∧
    isFoliageShown (config_Foliage true { construct with mIsFoliageShown := true }
      "graphics" "foliage" textVariable).1 = false ∧
    isFoliageShown (config_Foliage true { construct with mIsFoliageShown := true }
      "graphics" "foliage" textVariable).1 ≠
        isFoliageShown { construct with mIsFoliageShown := true } := by
  refine ⟨rfl, rfl, rfl, by decide⟩

theorem afterTerrainUpdate_trace {Area : Type} (s : TerrainManager) (areas : List Area)
    (pages : PageSet) :
    terrainHandler_AfterTerrainUpdate s areas pages = (s, pages.elems.flatMap pageUpdateCalls) := by
  unfold terrainHandler_AfterTerrainUpdate
  have h := foldl_append_trace pageUpdateCalls pages.elems []
  simp only [List.nil_append] at h
  unfold pageUpdateCalls at h ⊢
  rw [← h]

theorem count_emit_pageUpdateCalls (l : List TerrainPage) (p : TerrainPage) :
    (l.flatMap pageUpdateCalls).count (Effect.emitTerrainPageGeometryUpdated p) = l.count p := by
  induction l with
  | nil => rfl
  | cons q l ih =>
    rw [List.flatMap_cons, List.count_append, ih, List.count_cons]
    by_cases hqp : q = p
    · subst hqp
      simp [pageUpdateCalls, List.count_cons, Nat.add_comm]
    · have hne : ¬ (Effect.emitTerrainPageGeometryUpdated q =
          Effect.emitTerrainPageGeometryUpdated p) := by
        intro h
        exact hqp (Effect.emitTerrainPageGeometryUpdated.inj h)
      simp [pageUpdateCalls, List.count_cons, hqp, hne]

theorem count_reload_pageUpdateCalls (l : List TerrainPage) (i : TerrainIndex) :
    (l.flatMap pageUpdateCalls).count (Effect.adapterReloadPage i) =
      (l.filter fun p => decide (p.index = i)).length := by
  induction l with
  | nil => rfl
  | cons q l ih =>
    rw [List.flatMap_cons, List.count_append, ih, List.filter_cons]
    by_cases hqi : q.index = i
    · simp [pageUpdateCalls, List.count_cons, hqi, Nat.add_comm]
    · have hne : ¬ (Effect.adapterReloadPage q.index = Effect.adapterReloadPage i) := by
        intro h
        exact hqi (Effect.adapterReloadPage.inj h)
      simp [pageUpdateCalls, List.count_cons, hqi, hne]

theorem PageSet.nodup (pages : PageSet) : pages.elems.Nodup := by
  have h := pages.ascending
  refine List.Pairwise.imp ?_ h
  intro a b hab heq
  rw [heq] at hab
  exact Nat.lt_irrefl _ hab

/-- C7 (as amended): for every set of affected pages, `terrainHandler_AfterTerrainUpdate` makes, page by
page in the set's order, one `reloadPage` call with that page's index immediately followed by
one `EventTerrainPageGeometryUpdated` emission for that page, and nothing else.  Hence each
page of the set is emitted exactly once and no other page is; an index is reloaded as many
times as the set has pages with that index (once when the page is the only one with its index,
never when no page of the set has it); an empty set causes no reload and no emission; the
manager is unchanged; and the result does not depend on the areas argument. -/
theorem afterTerrainUpdate_reloads_exactly {Area Area' : Type} (s : TerrainManager)
    (areas : List Area) (areas' : List Area') (pages : PageSet) :
    (terrainHandler_AfterTerrainUpdate s areas pages).2 =
      pages.elems.flatMap (fun p =>
        [Effect.adapterReloadPage p.index, Effect.emitTerrainPageGeometryUpdated p]) ∧
    (terrainHandler_AfterTerrainUpdate s areas pages).2.length = 2 * pages.elems.length ∧
    (∀ p, p ∈ pages.elems →
      (terrainHandler_AfterTerrainUpdate s areas pages).2.count
        (Effect.emitTerrainPageGeometryUpdated p) = 1) ∧
    (∀ p, p ∉ pages.elems →
      (terrainHandler_AfterTerrainUpdate s areas pages).2.count
        (Effect.emitTerrainPageGeometryUpdated p) = 0) ∧
    (∀ i, (terrainHandler_AfterTerrainUpdate s areas pages).2.count (Effect.adapterReloadPage i) =
      (pages.elems.filter fun p => decide (p.index = i)).length) ∧
    (∀ p, p ∈ pages.elems → (∀ q, q ∈ pages.elems → q.index = p.index → q = p) →
      (terrainHandler_AfterTerrainUpdate s areas pages).2.count
        (Effect.adapterReloadPage p.index) = 1) ∧
    (∀ i, (∀ p, p ∈ pages.elems → p.index ≠ i) →
      (terrainHandler_AfterTerrainUpdate s areas pages).2.count (Effect.adapterReloadPage i) = 0) ∧
    (pages.elems = [] → (terrainHandler_AfterTerrainUpdate s areas pages).2 = []) ∧
    (terrainHandler_AfterTerrainUpdate s areas pages).1 = s ∧
    terrainHandler_AfterTerrainUpdate s areas' pages =
      terrainHandler_AfterTerrainUpdate s areas pages := by
  rw [afterTerrainUpdate_trace s areas pages, afterTerrainUpdate_trace s areas' pages]
  refine ⟨rfl, ?_, ?_, ?_, ?_, ?_, ?_, ?_, rfl, rfl⟩
  · show (pages.elems.flatMap pageUpdateCalls).length = 2 * pages.elems.length
    induction pages.elems with
    | nil => rfl
    | cons q l ih =>
      rw [List.flatMap_cons, List.length_append, ih]
      simp [pageUpdateCalls]
      omega
  · intro p hp
    show (pages.elems.flatMap pageUpdateCalls).count _ = 1
    rw [count_emit_pageUpdateCalls]
    exact List.count_eq_one_of_mem pages.nodup hp
  · intro p hp
    show (pages.elems.flatMap pageUpdateCalls).count _ = 0
    rw [count_emit_pageUpdateCalls]
    exact List.count_eq_zero.mpr hp
  · intro i
    exact count_reload_pageUpdateCalls _ _
  · intro p hp huniq
    show (pages.elems.flatMap pageUpdateCalls).count _ = 1
    rw [count_reload_pageUpdateCalls]
    have hf : (pages.elems.filter fun q => decide (q.index = p.index)) =
        pages.elems.filter fun q => decide (q = p) := by
      apply List.filter_congr
      intro q hq
      by_cases hqp : q = p
      · simp [hqp]
      · have : q.index ≠ p.index := fun h => hqp (huniq q hq h)
        simp [hqp, this]
    rw [hf]
    have hc := List.count_eq_one_of_mem pages.nodup hp
    rw [List.count, List.countP_eq_length_filter] at hc
    rw [← hc]
    congr 1
  · intro i hi
    show (pages.elems.flatMap pageUpdateCalls).count _ = 0
    rw [count_reload_pageUpdateCalls, List.length_eq_zero, List.filter_eq_nil_iff]
    intro p hp
    simpa using hi p hp
  · intro h
    show pages.elems.flatMap pageUpdateCalls = []
    rw [h]
    rfl

/-- Witness for C7: a set of two pages with the indices (0, 0) and (0, 1); each index is
reloaded once, each reload followed by the emission for its page. -/
theorem afterTerrainUpdate_reloads_exactly_witness :
    (terrainHandler_AfterTerrainUpdate construct ([] : List Unit) twoPages).2 =
      [Effect.adapterReloadPage (0, 0),
       Effect.emitTerrainPageGeometryUpdated { addr := 100, index := (0, 0) },
       Effect.adapterReloadPage (0, 1),
       Effect.emitTerrainPageGeometryUpdated { addr := 200, index := (0, 1) }] ∧
    (terrainHandler_AfterTerrainUpdate construct ([] : List Unit) twoPages).2.count
      (Effect.adapterReloadPage (0, 0)) = 1 ∧
    (terrainHandler_AfterTerrainUpdate construct ([] : List Unit) twoPages).2.count
      (Effect.adapterReloadPage (5, 5)) = 0 :=
  ⟨(afterTerrainUpdate_reloads_exactly construct ([] : List Unit) ([] : List Unit) twoPages).1,
   (afterTerrainUpdate_reloads_exactly construct ([] : List Unit) ([] : List Unit)
      twoPages).2.2.2.2.2.1 { addr := 100, index := (0, 0) } (by decide) (by decide),
   (afterTerrainUpdate_reloads_exactly construct ([] : List Unit) ([] : List Unit)
      twoPages).2.2.2.2.2.2.1 (5, 5) (by decide)⟩

/-- Counterexample to C7 as stated: for a set of two pages that both have the index (2, 2),
`reloadPage` is called twice for that index, not exactly once. -/
theorem afterTerrainUpdate_shared_index_counterexample :
    (terrainHandler_AfterTerrainUpdate construct ([] : List Unit) sharedIndexPages).2 =
      [Effect.adapterReloadPage (2, 2),
       Effect.emitTerrainPageGeometryUpdated { addr := 100, index := (2, 2) },
       Effect.adapterReloadPage (2, 2),
       Effect.emitTerrainPageGeometryUpdated { addr := 200, index := (2, 2) }] ∧
    (terrainHandler_AfterTerrainUpdate construct ([] : List Unit) sharedIndexPages).2.count
      (Effect.adapterReloadPage (2, 2)) = 2 ∧
    ¬ (∀ p, p ∈ sharedIndexPages.elems →
      (terrainHandler_AfterTerrainUpdate construct ([] : List Unit) sharedIndexPages).2.count
        (Effect.adapterReloadPage p.index) = 1) := by
  refine ⟨by decide, by decide, by decide⟩

/-- C8: in the call sequence of the destructor the handler's `shutdown()` comes before the
adapter's `reset()`, which comes before the deletion of the adapter, which comes before the
deletion of the handler; each of the four occurs exactly once, so no adapter or handler
deletion precedes the task purge. -/
theorem destructor_teardown_order (s : TerrainManager) :
    destructor s =
      [Effect.removeFrameListener, Effect.handlerShutdown, Effect.adapterReset,
       Effect.deleteTerrainAdapter, Effect.deleteHandler, Effect.deleteVegetation,
       Effect.deleteCompilerTechniqueProvider] ∧
    (destructor s).indexOf Effect.handlerShutdown < (destructor s).indexOf Effect.adapterReset ∧
    (destructor s).indexOf Effect.adapterReset <
      (destructor s).indexOf Effect.deleteTerrainAdapter ∧
    (destructor s).indexOf Effect.deleteTerrainAdapter <
      (destructor s).indexOf Effect.deleteHandler ∧
    (destructor s).indexOf Effect.deleteHandler < (destructor s).length ∧
    (destructor s).count Effect.handlerShutdown = 1 ∧
    (destructor s).count Effect.adapterReset = 1 ∧
    (destructor s).count Effect.deleteTerrainAdapter = 1 ∧
    (destructor s).count Effect.deleteHandler = 1 ∧
    (∀ k, k < (destructor s).indexOf Effect.handlerShutdown →
      (destructor s)[k]? ≠ some Effect.deleteTerrainAdapter ∧
      (destructor s)[k]? ≠ some Effect.deleteHandler) := by
  have h : destructor s =
      [Effect.removeFrameListener, Effect.handlerShutdown, Effect.adapterReset,
       Effect.deleteTerrainAdapter, Effect.deleteHandler, Effect.deleteVegetation,
       Effect.deleteCompilerTechniqueProvider] := rfl
  rw [h]
  refine ⟨rfl, by decide, by decide, by decide, by decide, by decide, by decide, by decide,
    by decide, ?_⟩
  intro k hk
  have h1 : [Effect.removeFrameListener, Effect.handlerShutdown, Effect.adapterReset,
       Effect.deleteTerrainAdapter, Effect.deleteHandler, Effect.deleteVegetation,
       Effect.deleteCompilerTechniqueProvider].indexOf Effect.handlerShutdown = 1 := by decide
  rw [h1] at hk
  have hk0 : k = 0 := by omega
  subst hk0
  constructor <;> decide

theorem sizeSub_one (w n : Nat) (h0 : 0 < n) (h1 : n < 2 ^ w) : sizeSub w n 1 = n - 1 := by
  unfold sizeSub
  have hw : 1 < 2 ^ w := by omega
  rw [Nat.mod_eq_of_lt h1, Nat.mod_eq_of_lt hw]
  have h2 : n + (2 ^ w - 1) = (n - 1) + 2 ^ w := by omega
  rw [h2, Nat.add_mod_right, Nat.mod_eq_of_lt (by omega)]

/-- C10: when the handler's shader list is non-empty (its size n fits `size_t`), for every
shader `terrainHandler_ShaderCreated` calls `createPopulator` once per foliage definition of
the shader's layer definition, in the definitions' order, every call with the index n - 1;
the number of calls is the number of foliage definitions, none for a shader without foliage
definitions; the manager is unchanged. -/
theorem shaderCreated_populators (w allShaders : Nat) (s : TerrainManager)
    (shader : TerrainShader) (h0 : 0 < allShaders) (h1 : allShaders < 2 ^ w) :
    (terrainHandler_ShaderCreated w allShaders s shader).2 =
      shader.layerDefinition.foliages.map (fun f => Effect.createPopulator f (allShaders - 1)) ∧
    (terrainHandler_ShaderCreated w allShaders s shader).2.length =
      shader.layerDefinition.foliages.length ∧
    (shader.layerDefinition.foliages = [] →
      (terrainHandler_ShaderCreated w allShaders s shader).2 = []) ∧
    (terrainHandler_ShaderCreated w allShaders s shader).1 = s := by
  have h : (terrainHandler_ShaderCreated w allShaders s shader).2 =
      shader.layerDefinition.foliages.map
        (fun f => Effect.createPopulator f (allShaders - 1)) := by
    unfold terrainHandler_ShaderCreated
    simp only [sizeSub_one w allShaders h0 h1]
    rw [foldl_append_trace (fun I => [Effect.createPopulator I (allShaders - 1)])]
    induction shader.layerDefinition.foliages with
    | nil => rfl
    | cons a l ih => simp [List.flatMap_cons] at ih ⊢; exact ih
  refine ⟨h, ?_, ?_, rfl⟩
  · rw [h, List.length_map]
  · intro hnil
    rw [h, hnil]
    rfl

/-- Witness for C10: the third registered shader, with two foliage definitions, on a platform
with a 64-bit `size_t`: two populators, both with index 2. -/
theorem shaderCreated_populators_witness :
    0 < 3 ∧ 3 < 2 ^ 64 ∧
    (terrainHandler_ShaderCreated 64 3 construct grassShader).2 =
      [Effect.createPopulator { plantType := "grass", populationTechnique := "cluster" } 2,
       Effect.createPopulator { plantType := "fern", populationTechnique := "cluster" } 2] :=
  ⟨by decide, by decide,
    (shaderCreated_populators 64 3 construct grassShader (by decide) (by decide)).1⟩

/-! ## Theorems: terrain-mod task finalization -/

theorem modMapEntries_erase (m : TerrainModMap) (e : String) :
    modMapEntries (modMapErase m e) e = [] := by
  unfold modMapEntries modMapErase
  rw [List.filter_filter, List.filter_eq_nil_iff]
  intro a _
  by_cases h : a.1 = e <;> simp [h]

theorem modMapEntries_erase_of_ne (m : TerrainModMap) (e e' : String) (h : e' ≠ e) :
    modMapEntries (modMapErase m e) e' = modMapEntries m e' := by
  unfold modMapEntries modMapErase
  rw [List.filter_filter]
  apply List.filter_congr
  intro a _
  by_cases h1 : a.1 = e'
  · have h2 : a.1 ≠ e := fun h3 => h (h1.symm.trans h3)
    simp [h1, h2, h]
  · simp [h1]

theorem modMapEntries_insert (m : TerrainModMap) (e : String) (a : TerrainMod) :
    modMapEntries (modMapInsert m e a) e = [(e, a)] := by
  have h := modMapEntries_erase m e
  unfold modMapEntries at h ⊢
  unfold modMapInsert
  rw [List.filter_cons]
  simp [h]

theorem modMapEntries_insert_of_ne (m : TerrainModMap) (e e' : String) (a : TerrainMod)
    (h : e' ≠ e) : modMapEntries (modMapInsert m e a) e' = modMapEntries m e' := by
  have h1 := modMapEntries_erase_of_ne m e e' h
  unfold modMapEntries at h1 ⊢
  unfold modMapInsert
  rw [List.filter_cons]
  have h2 : ¬ (e = e') := fun h3 => h h3.symm
  simp [h1, h2]

theorem executeTask_add (policy : StalePolicy) (e : String) (a : TerrainMod)
    (m : TerrainModMap) :
    executeTaskInMainThread policy (TerrainModTask.add e a) true m =
      (modMapInsert m e a, [ModEvent.terrainUpdate e]) := rfl

theorem executeTask_change_present (policy : StalePolicy) (e : String) (x a : TerrainMod)
    (m : TerrainModMap) (h : (e, x) ∈ m) :
    executeTaskInMainThread policy (TerrainModTask.change e x a) true m =
      (modMapInsert (modMapErase m e) e a, [ModEvent.terrainUpdate e]) := by
  simp [executeTaskInMainThread, h]

theorem executeTask_change_stale (e : String) (x a : TerrainMod) (m : TerrainModMap)
    (h : (e, x) ∉ m) :
    executeTaskInMainThread StalePolicy.skipRemoval (TerrainModTask.change e x a) true m =
      (modMapInsert m e a, [ModEvent.staleChange e, ModEvent.terrainUpdate e]) := by
  simp [executeTaskInMainThread, h]

theorem executeTask_change_stale_abort (e : String) (x a : TerrainMod) (m : TerrainModMap)
    (h : (e, x) ∉ m) :
    executeTaskInMainThread StalePolicy.abort (TerrainModTask.change e x a) true m =
      (m, [ModEvent.staleChange e]) := by
  simp [executeTaskInMainThread, h]

theorem executeTask_remove_absent (policy : StalePolicy) (e : String) (m : TerrainModMap)
    (h : modMapEntries m e = []) :
    executeTaskInMainThread policy (TerrainModTask.remove e) true m = (m, []) := by
  simp [executeTaskInMainThread, h]

theorem executeTask_remove_present (policy : StalePolicy) (e : String) (m : TerrainModMap)
    (h : modMapEntries m e ≠ []) :
    executeTaskInMainThread policy (TerrainModTask.remove e) true m =
      (modMapErase m e, [ModEvent.terrainUpdate e]) := by
  simp [executeTaskInMainThread, h]

theorem executeTask_terrain_gone (policy : StalePolicy) (t : TerrainModTask)
    (m : TerrainModMap) : executeTaskInMainThread policy t false m = (m, []) := by
  simp [executeTaskInMainThread]

theorem executeTask_entries (t : TerrainModTask) (m : TerrainModMap) :
    modMapEntries (executeTaskInMainThread StalePolicy.skipRemoval t true m).1 t.entityId =
      expectedEntries t.entityId t := by
  cases t with
  | add e a =>
    rw [executeTask_add]
    exact modMapEntries_insert m e a
  | change e x a =>
    by_cases h : (e, x) ∈ m
    · rw [executeTask_change_present _ e x a m h]
      exact modMapEntries_insert _ e a
    · rw [executeTask_change_stale e x a m h]
      exact modMapEntries_insert _ e a
  | remove e =>
    by_cases h : modMapEntries m e = []
    · rw [executeTask_remove_absent _ e m h]
      exact h
    · rw [executeTask_remove_present _ e m h]
      exact modMapEntries_erase m e

theorem executeTask_entries_of_ne (policy : StalePolicy) (t : TerrainModTask) (alive : Bool)
    (m : TerrainModMap) (e' : String) (h : e' ≠ t.entityId) :
    modMapEntries (executeTaskInMainThread policy t alive m).1 e' = modMapEntries m e' := by
  cases alive with
  | false => rw [executeTask_terrain_gone]
  | true =>
    cases t with
    | add e a =>
      rw [executeTask_add]
      exact modMapEntries_insert_of_ne m e e' a h
    | change e x a =>
      by_cases hx : (e, x) ∈ m
      · rw [executeTask_change_present _ e x a m hx]
        exact (modMapEntries_insert_of_ne _ e e' a h).trans (modMapEntries_erase_of_ne m e e' h)
      · cases policy with
        | skipRemoval =>
          rw [executeTask_change_stale e x a m hx]
          exact modMapEntries_insert_of_ne m e e' a h
        | abort => rw [executeTask_change_stale_abort e x a m hx]
    | remove e =>
      by_cases hx : modMapEntries m e = []
      · rw [executeTask_remove_absent _ e m hx]
      · rw [executeTask_remove_present _ e m hx]
        exact modMapEntries_erase_of_ne m e e' h

theorem finalizeAll_concat (policy : StalePolicy) (steps : List Finalization)
    (f : Finalization) (m : TerrainModMap) :
    (finalizeAll policy (steps ++ [f]) m).1 =
      (executeTaskInMainThread policy f.task f.terrainExists (finalizeAll policy steps m).1).1 := by
  unfold finalizeAll
  rw [List.foldl_append]
  rfl

theorem lastEffective_concat (steps : List Finalization) (f : Finalization) :
    lastEffective (steps ++ [f]) =
      if f.terrainExists then some f.task else lastEffective steps := by
  unfold lastEffective
  rw [List.filter_append]
  cases h : f.terrainExists with
  | false => simp [List.filter_cons, h]
  | true => simp [List.filter_cons, h, List.getLast?_append]

theorem finalizeAll_entries_of_ne (policy : StalePolicy) (steps : List Finalization)
    (m : TerrainModMap) (e' : String) (h : ∀ f, f ∈ steps → e' ≠ f.task.entityId) :
    modMapEntries (finalizeAll policy steps m).1 e' = modMapEntries m e' := by
  induction steps using List.reverseRecOn with
  | nil => rfl
  | append_singleton init f ih =>
    rw [finalizeAll_concat,
      executeTask_entries_of_ne policy f.task f.terrainExists _ e' (h f (by simp)),
      ih (fun g hg => h g (by simp [hg]))]

theorem finalizeAll_settled (entityId : String) (steps : List Finalization) (m : TerrainModMap)
    (hid : ∀ f, f ∈ steps → f.task.entityId = entityId) :
    modMapEntries (finalizeAll StalePolicy.skipRemoval steps m).1 entityId =
      settledEntries entityId m (lastEffective steps) := by
  induction steps using List.reverseRecOn with
  | nil => rfl
  | append_singleton init f ih =>
    have hf : f.task.entityId = entityId := hid f (by simp)
    have ih1 := ih (fun g hg => hid g (by simp [hg]))
    rw [finalizeAll_concat, lastEffective_concat]
    cases h : f.terrainExists with
    | false =>
      rw [executeTask_terrain_gone]
      simpa using ih1
    | true =>
      have h2 := executeTask_entries f.task (finalizeAll StalePolicy.skipRemoval init m).1
      rw [hf] at h2
      simpa [settledEntries] using h2

/-- C9 (as amended): for every initial map and every sequence of add/change/remove tasks that
all target one entity id, with a stale change degrading to an add, after the main-thread
finalizations have run in submission order the map's entries for that id are those of the last
task whose finalization found the terrain instance alive: none when that task is a remove,
otherwise exactly one, holding its applied copy; when no task found the terrain alive they are
the entries of the initial map.  In particular, when the last task of the sequence finds the
terrain alive, it decides.  Entries of other ids are as before. -/
theorem finalizeAll_last_effective_task_wins (entityId : String) (steps : List Finalization)
    (m : TerrainModMap) (hid : ∀ f, f ∈ steps → f.task.entityId = entityId) :
    modMapEntries (finalizeAll StalePolicy.skipRemoval steps m).1 entityId =
      settledEntries entityId m (lastEffective steps) ∧
    (∀ init last, steps = init ++ [last] → last.terrainExists = true →
      modMapEntries (finalizeAll StalePolicy.skipRemoval steps m).1 entityId =
        expectedEntries entityId last.task) ∧
    (∀ t, lastEffective steps = some t →
      (modMapEntries (finalizeAll StalePolicy.skipRemoval steps m).1 entityId).length ≤ 1) ∧
    (∀ e', e' ≠ entityId →
      modMapEntries (finalizeAll StalePolicy.skipRemoval steps m).1 e' = modMapEntries m e') := by
  have hmain := finalizeAll_settled entityId steps m hid
  refine ⟨hmain, ?_, ?_, ?_⟩
  · intro init last hsteps halive
    rw [hmain, hsteps, lastEffective_concat, halive]
    rfl
  · intro t ht
    rw [hmain, ht]
    cases t <;> simp [settledEntries, expectedEntries]
  · intro e' he'
    apply finalizeAll_entries_of_ne
    intro f hf hc
    exact he' (hc.trans (hid f hf))

/-- Witness for C9: Add(rock1, crater) then Change(rock1, crater to ramp) on an empty map, both
with the terrain alive, leave exactly the ramp for rock1. -/
theorem finalizeAll_last_effective_task_wins_witness :
    (∀ f, f ∈ addThenChange → f.task.entityId = "rock1") ∧
    modMapEntries (finalizeAll StalePolicy.skipRemoval addThenChange []).1 "rock1" =
      [("rock1", ⟨"ramp"⟩)] :=
  have hid : ∀ f, f ∈ addThenChange → f.task.entityId = "rock1" := by
    intro f hf
    simp only [addThenChange, List.mem_cons, List.mem_singleton, List.not_mem_nil,
      or_false] at hf
    rcases hf with rfl | rfl <;> rfl
  ⟨hid, (finalizeAll_last_effective_task_wins "rock1" addThenChange [] hid).1⟩

/-- Counterexample to C9 as stated: Add(rock1, crater) is finalized, then
Change(rock1, crater to ramp) is finalized after the terrain instance is gone and so is a
no-op; all tasks target rock1 and the last non-remove task is the change, yet the map holds the
crater, not the ramp.  Under the `abort` policy for stale changes the same happens with the
terrain alive for Remove(rock1) followed by that change on an empty map: no entry at all. -/
theorem finalizeAll_terrain_gone_counterexample :
    (∀ f, f ∈ changeAfterTeardown → f.task.entityId = "rock1") ∧
    (changeAfterTeardown.getLast?.map fun f => f.task) =
      some (TerrainModTask.change "rock1" ⟨"crater"⟩ ⟨"ramp"⟩) ∧
    modMapEntries (finalizeAll StalePolicy.skipRemoval changeAfterTeardown []).1 "rock1" =
      [("rock1", ⟨"crater"⟩)] ∧
    modMapEntries (finalizeAll StalePolicy.skipRemoval changeAfterTeardown []).1 "rock1" ≠
      expectedEntries "rock1" (TerrainModTask.change "rock1" ⟨"crater"⟩ ⟨"ramp"⟩) ∧
    modMapEntries (finalizeAll StalePolicy.abort
      [{ task := TerrainModTask.remove "rock1", terrainExists := true },
       { task := TerrainModTask.change "rock1" ⟨"crater"⟩ ⟨"ramp"⟩, terrainExists := true }]
      []).1 "rock1" = [] := by
  refine ⟨by decide, by decide, by decide, by decide, by decide⟩

end Terrain

end Ember
